import Mathlib

/-!
Shallow embedding of `src/app/main.py` (a FastAPI URL-shortening service).

The database is a SQLite table of `URLShortener` rows with an autoincrement
primary key `id`, an indexed `original_url`, a UNIQUE-indexed `shorten_url`
and a `click_count` defaulting to 0.  We model the table as a `List` of rows
in insertion (rowid) order; `session.exec(select(...)).first()` is
`List.find?`, an INSERT is an append that the unique index rejects when the
code is already present, and an UPDATE of the row found by `first()` is an
in-place replacement of the first matching row.

Python exceptions that can reach the HTTP layer are modelled by `AppError`:
`HTTPException(404, ...)` raised deliberately by handlers, the pydantic
`ValidationError` for a request body whose `original_url` is missing or not
a string, and the sqlite/SQLAlchemy `IntegrityError` that an INSERT violating
the unique index raises out of `session.commit()` (no handler in the code
catches it).  Each handler is a function from the store to a result paired
with the store after the call, so frame properties are equalities of stores.
-/

namespace UrlShortener

/-- The base62 default charset: digits, then upper-case, then lower-case
letters, as used by the `base62.encode` the code imports. -/
def base62Charset : List Char :=
  "0123456789ABCDEFGHIJKLMNOPQRSTUVWXYZabcdefghijklmnopqrstuvwxyz".toList

/-- Digits of `n` in base 62, most significant first, empty for `n = 0`:
the digit-accumulation loop inside `base62.encode`. -/
def encodeNat (n : Nat) : List Char :=
  if h : n = 0 then []
  else encodeNat (n / 62) ++ [base62Charset.getD (n % 62) '0']
termination_by n
decreasing_by exact Nat.div_lt_self (Nat.pos_of_ne_zero h) (by decide)

/-- Model of `base62.encode`: the base-62 representation of `n`, with `"0"` for 0. -/
def encode (n : Nat) : String :=
  if n = 0 then "0" else String.mk (encodeNat n)

/-- Python string slicing `s[:7]`. -/
def pyTake7 (s : String) : String :=
  String.mk (s.toList.take 7)

/-- A row of the `urlshortener` table: primary key `id` (assigned by the
store on commit), `original_url`, the unique `shorten_url` code, and
`click_count` with default 0. -/
structure URLShortener where
  id : Option Nat
  original_url : String
  shorten_url : String
  click_count : Nat
deriving Repr, DecidableEq

/-- The persisted table, in rowid (insertion) order. -/
abbrev Store := List URLShortener

/-- Exceptions that reach FastAPI from the handlers. -/
inductive AppError where
  /-- An `HTTPException(status_code, detail)` raised by a handler. -/
  | httpException (status : Nat) (detail : String)
  /-- The `sqlalchemy.exc.IntegrityError` escaping `session.commit()` when an
  INSERT violates the unique index on `shorten_url`; nothing catches it. -/
  | integrityError
  /-- pydantic `ValidationError`: the request body does not match
  `ShortenRequest` (missing or non-string `original_url`). -/
  | validationError
deriving Repr, DecidableEq

/-- How FastAPI surfaces an exception: `HTTPException` and request
validation errors are translated to their status codes; any other exception
(here `IntegrityError`) escapes unhandled and becomes a bare 500. -/
def handledStatus : AppError → Option Nat
  | .httpException s _ => some s
  | .validationError => some 422
  | .integrityError => none

/-- A Python value as returned by `URLShortener.lookup_url`: the integer
`0` sentinel on a miss, or the string `result.original_url` on a hit. -/
inductive PyValue where
  | pyInt (n : Int)
  | pyStr (s : String)
deriving Repr, DecidableEq

/-- Python truthiness for the values `lookup_url` can return:
`bool(0) = False`, `bool("") = False`, everything else truthy. -/
def truthy : PyValue → Bool
  | .pyInt n => n != 0
  | .pyStr s => s != ""

/-- Bodies a handler can return (FastAPI responses). -/
inductive Response where
  /-- The dict returned by `POST /shorten/`. -/
  | shortenResponse (original_url : String) (shorten : String)
  /-- A `RedirectResponse(url=original_url)`; the argument is whatever value
  `lookup_url` returned. -/
  | redirectResponse (url : PyValue)
  /-- Body of `GET /stats/<short_code>`: the single matched row. -/
  | statsOne (r : URLShortener)
  /-- Body of `GET /stats/`: all rows. -/
  | statsAll (rs : List URLShortener)
deriving Repr, DecidableEq

/-- Does a row with this `shorten_url` exist (the unique index's view)? -/
def codeExists (store : Store) (code : String) : Bool :=
  store.any fun r => r.shorten_url == code

/-- Model of `URLShortener.generate_short_code(self, session)`: sets
`self.shorten_url = encode(uuid4().int)[:7]`, then `session.add(self)` and
`session.commit()` — i.e. INSERTs the row, which the unique index rejects
with `IntegrityError` when the code is already stored (the transaction is
rolled back, so the store is unchanged) — and returns `self.shorten_url`.
The random draw `uuid4().int` is passed in as the `uuid` argument. -/
def generate_short_code (r : URLShortener) (uuid : Nat) (store : Store) :
    Except AppError String × Store :=
  let code := pyTake7 (encode uuid)
  if codeExists store code then (.error .integrityError, store)
  else (.ok code,
        store ++ [{ r with shorten_url := code, id := some (store.length + 1) }])

/-- Replace the first row whose `shorten_url` is `code` by the same row with
`click_count` incremented: the `result.click_count += 1; session.add(result);
session.commit()` update inside `lookup_url`. -/
def incrementFirst : Store → String → Store
  | [], _ => []
  | r :: rest, code =>
      if r.shorten_url == code then
        { r with click_count := r.click_count + 1 } :: rest
      else r :: incrementFirst rest code

/-- Model of `URLShortener.lookup_url(session, short_code)`: `first()` over
`select(cls).where(cls.shorten_url == short_code)`; returns the integer `0`
if no row matches, otherwise increments the matched row's `click_count`,
commits, and returns its `original_url`. -/
def lookup_url (store : Store) (short_code : String) : PyValue × Store :=
  match store.find? (fun r => r.shorten_url == short_code) with
  | none => (.pyInt 0, store)
  | some r => (.pyStr r.original_url, incrementFirst store short_code)

/-- The `POST /shorten/` handler body, after request validation: builds
`URLShortener(original_url=...)` and calls `generate_short_code`, returning
the dict on success; the `IntegrityError` a collision raises propagates. -/
def shorten_url (request_original_url : String) (uuid : Nat) (store : Store) :
    Except AppError Response × Store :=
  let url : URLShortener :=
    { id := none, original_url := request_original_url,
      shorten_url := "", click_count := 0 }
  match generate_short_code url uuid store with
  | (.ok code, store') =>
      (.ok (.shortenResponse request_original_url code), store')
  | (.error e, store') => (.error e, store')

/-- A `POST /shorten/` request body as pydantic sees it: either an
`original_url` field that is a string, or anything else (missing field,
non-string value), which `ShortenRequest` rejects. -/
inductive RequestBody where
  | strField (original_url : String)
  | invalidBody
deriving Repr, DecidableEq

/-- The full `POST /shorten/` endpoint: pydantic validation of the body
against `ShortenRequest` (`original_url: str` — any string passes), then the
handler. -/
def post_shorten (body : RequestBody) (uuid : Nat) (store : Store) :
    Except AppError Response × Store :=
  match body with
  | .invalidBody => (.error .validationError, store)
  | .strField u => shorten_url u uuid store

/-- The `GET /<short_code>` handler: calls `lookup_url` and tests the returned
value for truthiness — redirect when truthy, `HTTPException(404)` when falsy
(both the integer `0` miss sentinel and an empty `original_url` are falsy). -/
def redirect (store : Store) (short_code : String) :
    Except AppError Response × Store :=
  let res := lookup_url store short_code
  if truthy res.1 then (.ok (.redirectResponse res.1), res.2)
  else (.error (.httpException 404 "URL not found"), res.2)

/-- The `GET /stats/` handler: `select(URLShortener)).all()`, no mutation. -/
def get_all_rows (store : Store) : Except AppError Response × Store :=
  (.ok (.statsAll store), store)

/-- The `GET /stats/<short_code>` handler: `first()` over the same select as
`lookup_url`, `HTTPException(404)` on a miss, otherwise the row — with no
update and no commit. -/
def get_stats (store : Store) (short_code : String) :
    Except AppError Response × Store :=
  match store.find? (fun r => r.shorten_url == short_code) with
  | none => (.error (.httpException 404 "URL not found"), store)
  | some r => (.ok (.statsOne r), store)

/-- Every `uuid4().int` lies in this range: it is a 128-bit value whose
version nibble (the hex digit `4` at bit offset 78) is always set, so it is
at least `2 ^ 78`. -/
def uuid4_range (n : Nat) : Prop := 2 ^ 78 ≤ n ∧ n < 2 ^ 128

/-- The `click_count` of the first row matching `code`, if any. -/
def clickOf (store : Store) (code : String) : Option Nat :=
  (store.find? (fun r => r.shorten_url == code)).map (·.click_count)

/-- Iterated lookup: `lookup_url` run `n` times in sequence on one code. -/
def iterLookup : Nat → Store → String → Store
  | 0, store, _ => store
  | n + 1, store, code => iterLookup n (lookup_url store code).2 code

/-- The uniqueness invariant of the unique index: no two rows share a
`shorten_url`. -/
def Uniq (store : Store) : Prop :=
  store.Pairwise fun a b => a.shorten_url ≠ b.shorten_url

/-- Rows survive in place (operations only append or update in place), and
no surviving row's `click_count` decreased. -/
def clicksMono (s s' : Store) : Prop :=
  s.length ≤ s'.length ∧
    ∀ i, (h : i < s.length) → (h' : i < s'.length) →
      (s.get ⟨i, h⟩).click_count ≤ (s'.get ⟨i, h'⟩).click_count

/-! ### Helper lemmas about the base-62 encoder -/

theorem encodeNat_eq (n : Nat) (h : n ≠ 0) :
    encodeNat n = encodeNat (n / 62) ++ [base62Charset.getD (n % 62) '0'] := by
  rw [encodeNat]
  simp [h]

theorem encodeNat_zero : encodeNat 0 = [] := by
  rw [encodeNat]
  simp

theorem base62Charset_length : base62Charset.length = 62 := rfl

theorem encodeNat_subset (n : Nat) : ∀ c ∈ encodeNat n, c ∈ base62Charset := by
  induction n using Nat.strong_induction_on with
  | _ n ih =>
    by_cases h : n = 0
    · subst h
      rw [encodeNat_zero]
      simp
    · rw [encodeNat_eq n h]
      intro c hc
      rcases List.mem_append.1 hc with h1 | h1
      · exact ih (n / 62) (Nat.div_lt_self (Nat.pos_of_ne_zero h) (by decide)) c h1
      · have hlt : n % 62 < base62Charset.length := by
          rw [base62Charset_length]
          exact Nat.mod_lt _ (by decide)
        simp only [List.mem_singleton] at h1
        subst h1
        rw [List.getD_eq_getElem _ _ hlt]
        exact List.getElem_mem hlt

theorem le_length_encodeNat (k : Nat) :
    ∀ n, 62 ^ k ≤ n → k + 1 ≤ (encodeNat n).length := by
  induction k with
  | zero =>
    intro n hn
    have h : n ≠ 0 := by omega
    rw [encodeNat_eq n h]
    simp
  | succ k ih =>
    intro n hn
    have h : n ≠ 0 := by
      have : 0 < 62 ^ (k + 1) := Nat.pos_pow_of_pos _ (by decide)
      omega
    have hdiv : 62 ^ k ≤ n / 62 := by
      rw [Nat.le_div_iff_mul_le (by decide)]
      calc 62 ^ k * 62 = 62 ^ (k + 1) := (Nat.pow_succ 62 k).symm
        _ ≤ n := hn
    rw [encodeNat_eq n h]
    have := ih (n / 62) hdiv
    simp only [List.length_append, List.length_singleton]
    omega

/-- The generated code: 7 characters exactly, whenever the encoded value is
at least `62 ^ 6` (every `uuid4().int` is, being at least `2 ^ 78`). -/
theorem length_pyTake7_encode (uuid : Nat) (h : 62 ^ 6 ≤ uuid) :
    (pyTake7 (encode uuid)).length = 7 := by
  have hne : uuid ≠ 0 := by
    have : 0 < 62 ^ 6 := by decide
    omega
  have hlen : 7 ≤ (encodeNat uuid).length := le_length_encodeNat 6 uuid h
  simp only [pyTake7, encode, hne, if_false, String.length]
  simpa using hlen

theorem mem_pyTake7_encode (uuid : Nat) :
    ∀ c ∈ (pyTake7 (encode uuid)).toList, c ∈ base62Charset := by
  intro c hc
  by_cases hne : uuid = 0
  · subst hne
    have hx : (pyTake7 (encode 0)).toList = ['0'] := by decide
    rw [hx] at hc
    simp only [List.mem_singleton] at hc
    subst hc
    decide
  · simp only [pyTake7, encode, hne, if_false] at hc
    have : c ∈ encodeNat uuid := List.mem_of_mem_take (by simpa using hc)
    exact encodeNat_subset uuid c this

theorem two_pow_78_le_62_pow_6 : (62 : Nat) ^ 6 ≤ 2 ^ 78 := by norm_num

/-! ### Helper lemmas about the store operations -/

theorem find?_eq_none_of_not_codeExists (store : Store) (c : String)
    (h : codeExists store c = false) :
    store.find? (fun r => r.shorten_url == c) = none := by
  rw [List.find?_eq_none]
  intro x hx
  rw [codeExists, List.any_eq_false] at h
  exact h x hx

theorem length_incrementFirst (store : Store) (c : String) :
    (incrementFirst store c).length = store.length := by
  induction store with
  | nil => rfl
  | cons r rest ih =>
    by_cases h : r.shorten_url == c
    · simp [incrementFirst, h]
    · simp [incrementFirst, h, ih]

theorem find?_incrementFirst (store : Store) (c : String) :
    (incrementFirst store c).find? (fun r => r.shorten_url == c) =
      (store.find? (fun r => r.shorten_url == c)).map
        (fun r => { r with click_count := r.click_count + 1 }) := by
  induction store with
  | nil => rfl
  | cons r rest ih =>
    by_cases h : r.shorten_url = c
    · simp [incrementFirst, h, List.find?_cons]
    · simp [incrementFirst, h, List.find?_cons, ih]

theorem map_shorten_incrementFirst (store : Store) (c : String) :
    (incrementFirst store c).map (fun r => r.shorten_url) =
      store.map (fun r => r.shorten_url) := by
  induction store with
  | nil => rfl
  | cons r rest ih =>
    by_cases h : r.shorten_url == c
    · simp [incrementFirst, h]
    · simp [incrementFirst, h, ih]

theorem get_incrementFirst_click (c : String) :
    ∀ (store : Store) (i : Nat), (h : i < store.length) →
      (h' : i < (incrementFirst store c).length) →
      (store.get ⟨i, h⟩).click_count ≤
        ((incrementFirst store c).get ⟨i, h'⟩).click_count := by
  intro store
  induction store with
  | nil =>
    intro i h h'
    exact absurd h (by simp)
  | cons r rest ih =>
    intro i h h'
    by_cases hr : r.shorten_url = c
    · cases i with
      | zero => simp [incrementFirst, hr]
      | succ j => simp [incrementFirst, hr]
    · cases i with
      | zero => simp [incrementFirst, hr]
      | succ j =>
        have h2 : j < rest.length := by simpa using h
        have h3 : j < (incrementFirst rest c).length := by
          rw [length_incrementFirst]
          exact h2
        have hstep := ih j h2 h3
        simpa [incrementFirst, hr] using hstep

theorem lookup_url_miss (store : Store) (c : String)
    (h : codeExists store c = false) :
    lookup_url store c = (.pyInt 0, store) := by
  rw [lookup_url, find?_eq_none_of_not_codeExists store c h]

theorem lookup_url_hit (store : Store) (c : String) (r : URLShortener)
    (h : store.find? (fun x => x.shorten_url == c) = some r) :
    lookup_url store c = (.pyStr r.original_url, incrementFirst store c) := by
  rw [lookup_url, h]

theorem find?_append_right (store : Store) (p : URLShortener → Bool)
    (x : URLShortener) (h : store.find? p = none) (hx : p x = true) :
    (store ++ [x]).find? p = some x := by
  rw [List.find?_append, h]
  simp [List.find?_cons, hx]

theorem shorten_url_success (u : String) (uuid : Nat) (store : Store)
    (h : codeExists store (pyTake7 (encode uuid)) = false) :
    shorten_url u uuid store =
      (.ok (.shortenResponse u (pyTake7 (encode uuid))),
       store ++ [{ id := some (store.length + 1), original_url := u,
                   shorten_url := pyTake7 (encode uuid), click_count := 0 }]) := by
  simp [shorten_url, generate_short_code, h]

theorem shorten_url_conflict (u : String) (uuid : Nat) (store : Store)
    (h : codeExists store (pyTake7 (encode uuid)) = true) :
    shorten_url u uuid store = (.error .integrityError, store) := by
  simp [shorten_url, generate_short_code, h]

theorem iterLookup_succ (n : Nat) (store : Store) (c : String) :
    iterLookup (n + 1) store c = iterLookup n (lookup_url store c).2 c := rfl

theorem find?_iterLookup (N : Nat) :
    ∀ (store : Store) (c : String) (r : URLShortener),
      store.find? (fun x => x.shorten_url == c) = some r →
      (iterLookup N store c).find? (fun x => x.shorten_url == c) =
        some { r with click_count := r.click_count + N } := by
  induction N with
  | zero =>
    intro s c r h
    simpa using h
  | succ n ih =>
    intro s c r h
    rw [iterLookup_succ, lookup_url_hit s c r h]
    have h2 : (incrementFirst s c).find? (fun x => x.shorten_url == c) =
        some { r with click_count := r.click_count + 1 } := by
      rw [find?_incrementFirst, h]
      rfl
    rw [ih (incrementFirst s c) c _ h2]
    simp only [Option.some.injEq, URLShortener.mk.injEq]
    refine ⟨trivial, trivial, trivial, ?_⟩
    omega

theorem clickOf_incrementFirst (store : Store) (c : String) :
    clickOf (incrementFirst store c) c = (clickOf store c).map (· + 1) := by
  rw [clickOf, clickOf, find?_incrementFirst]
  cases store.find? fun r => r.shorten_url == c <;> rfl

theorem uniq_append (store : Store) (x : URLShortener) (hU : Uniq store)
    (h : codeExists store x.shorten_url = false) : Uniq (store ++ [x]) := by
  rw [Uniq, List.pairwise_append]
  refine ⟨hU, by simp, ?_⟩
  intro a ha b hb
  simp only [List.mem_singleton] at hb
  subst hb
  rw [codeExists, List.any_eq_false] at h
  have := h a ha
  simpa using this

theorem uniq_incrementFirst (store : Store) (c : String) (hU : Uniq store) :
    Uniq (incrementFirst store c) := by
  have h1 : List.Pairwise (· ≠ ·) (store.map fun r => r.shorten_url) :=
    List.pairwise_map.2 hU
  have h2 : List.Pairwise (· ≠ ·)
      ((incrementFirst store c).map fun r => r.shorten_url) := by
    rw [map_shorten_incrementFirst]
    exact h1
  exact List.pairwise_map.1 h2

theorem clicksMono_refl (store : Store) : clicksMono store store :=
  ⟨Nat.le_refl _, fun _ _ _ => Nat.le_refl _⟩

theorem clicksMono_append (store : Store) (x : URLShortener) :
    clicksMono store (store ++ [x]) := by
  refine ⟨by simp, ?_⟩
  intro i h h'
  have hg : (store ++ [x]).get ⟨i, h'⟩ = store.get ⟨i, h⟩ := by
    simp [List.get_eq_getElem, List.getElem_append_left h]
  rw [hg]

theorem clicksMono_incrementFirst (store : Store) (c : String) :
    clicksMono store (incrementFirst store c) :=
  ⟨by rw [length_incrementFirst], fun i h h' => get_incrementFirst_click c store i h h'⟩

/-! ### Concrete evaluation of the encoder at a value in the uuid4 range -/

set_option maxRecDepth 4000

/-- The value `62 ^ 14` lies in the uuid4 range and base62-encodes to `"1"` followed
by fourteen `"0"`s, so the generated code for it is `"1000000"`. -/
theorem pyTake7_encode_62pow14 : pyTake7 (encode (62 ^ 14)) = "1000000" := by
  have h : encode (62 ^ 14) =
      String.mk ['1', '0', '0', '0', '0', '0', '0', '0',
                 '0', '0', '0', '0', '0', '0', '0'] := by
    norm_num [encode, encodeNat_eq, encodeNat_zero, base62Charset]
  rw [h]
  rfl

/-! ### The claims -/

/-- C1: `lookup_url` on a code with no stored record returns the miss
outcome — the falsy sentinel `0`, which the redirect endpoint surfaces as
the deliberately raised, handled `HTTPException(404)` rather than a hard
system failure — and leaves the store unchanged: no record is created. -/
theorem lookup_unknown_returns_miss_and_404 (store : Store) (c : String)
    (h : codeExists store c = false) :
    lookup_url store c = (.pyInt 0, store) ∧
    redirect store c = (.error (.httpException 404 "URL not found"), store) ∧
    handledStatus (.httpException 404 "URL not found") = some 404 := by
  have hm := lookup_url_miss store c h
  exact ⟨hm, by simp [redirect, hm, truthy], rfl⟩

/-- Witness for C1 at the empty store and the code `"zzzzzzz"`. -/
theorem lookup_unknown_witness :
    lookup_url [] "zzzzzzz" = (.pyInt 0, []) ∧
    redirect [] "zzzzzzz" = (.error (.httpException 404 "URL not found"), []) ∧
    handledStatus (.httpException 404 "URL not found") = some 404 :=
  lookup_unknown_returns_miss_and_404 [] "zzzzzzz" rfl

/-- C2: round trip — when create succeeds (its fresh code was not yet
stored), looking the returned code up immediately afterwards yields the
original URL that was shortened. -/
theorem create_lookup_roundtrip (u : String) (uuid : Nat) (store : Store)
    (hne : u ≠ "")
    (hfree : codeExists store (pyTake7 (encode uuid)) = false) :
    (shorten_url u uuid store).1 =
      .ok (.shortenResponse u (pyTake7 (encode uuid))) ∧
    (lookup_url (shorten_url u uuid store).2 (pyTake7 (encode uuid))).1 =
      .pyStr u := by
  rw [shorten_url_success u uuid store hfree]
  refine ⟨rfl, ?_⟩
  have hfind := find?_append_right store
    (fun x => x.shorten_url == pyTake7 (encode uuid))
    { id := some (store.length + 1), original_url := u,
      shorten_url := pyTake7 (encode uuid), click_count := 0 }
    (find?_eq_none_of_not_codeExists store _ hfree) (by simp)
  rw [lookup_url_hit _ _ _ hfind]

/-- Witness for C2 at `"https://example.com"` and the uuid draw `62 ^ 14`. -/
theorem create_lookup_roundtrip_witness :
    (shorten_url "https://example.com" (62 ^ 14) []).1 =
      .ok (.shortenResponse "https://example.com" (pyTake7 (encode (62 ^ 14)))) ∧
    (lookup_url (shorten_url "https://example.com" (62 ^ 14) []).2
        (pyTake7 (encode (62 ^ 14)))).1 = .pyStr "https://example.com" :=
  create_lookup_roundtrip "https://example.com" (62 ^ 14) [] (by decide) rfl

/-- C3: a record is created with `click_count = 0` and `N` sequential calls
of `lookup_url` on its code bring it to exactly `N` — each call increments
by exactly 1. -/
theorem create_then_lookups_click_count (u : String) (uuid : Nat)
    (store : Store) (N : Nat)
    (hfree : codeExists store (pyTake7 (encode uuid)) = false) :
    clickOf (shorten_url u uuid store).2 (pyTake7 (encode uuid)) = some 0 ∧
    clickOf (iterLookup N (shorten_url u uuid store).2 (pyTake7 (encode uuid)))
        (pyTake7 (encode uuid)) = some N := by
  rw [shorten_url_success u uuid store hfree]
  have hfind := find?_append_right store
    (fun x => x.shorten_url == pyTake7 (encode uuid))
    { id := some (store.length + 1), original_url := u,
      shorten_url := pyTake7 (encode uuid), click_count := 0 }
    (find?_eq_none_of_not_codeExists store _ hfree) (by simp)
  constructor
  · rw [clickOf, hfind]
    rfl
  · rw [clickOf, find?_iterLookup N _ _ _ hfind]
    simp

/-- Witness for C3: three lookups of a fresh code give `click_count = 3`. -/
theorem create_then_lookups_witness :
    clickOf (shorten_url "https://example.com" (62 ^ 14) []).2
      (pyTake7 (encode (62 ^ 14))) = some 0 ∧
    clickOf (iterLookup 3 (shorten_url "https://example.com" (62 ^ 14) []).2
        (pyTake7 (encode (62 ^ 14)))) (pyTake7 (encode (62 ^ 14))) = some 3 :=
  create_then_lookups_click_count "https://example.com" (62 ^ 14) [] 3 rfl

/-- C4: the code a successful create returns is `encode(uuid)[:7]`: exactly
7 characters, every one from the base-62 alphabet, for every value in the
`uuid4().int` range. -/
theorem created_code_length7_base62 (u : String) (uuid : Nat) (store : Store)
    (resp : Response) (hu : uuid4_range uuid)
    (hok : (shorten_url u uuid store).1 = .ok resp) :
    resp = .shortenResponse u (pyTake7 (encode uuid)) ∧
    (pyTake7 (encode uuid)).length = 7 ∧
    ∀ ch ∈ (pyTake7 (encode uuid)).toList, ch ∈ base62Charset := by
  have h7 : (pyTake7 (encode uuid)).length = 7 :=
    length_pyTake7_encode uuid (le_trans two_pow_78_le_62_pow_6 hu.1)
  refine ⟨?_, h7, mem_pyTake7_encode uuid⟩
  by_cases hc : codeExists store (pyTake7 (encode uuid)) = true
  · rw [shorten_url_conflict u uuid store hc] at hok
    exact Except.noConfusion hok
  · rw [Bool.not_eq_true] at hc
    rw [shorten_url_success u uuid store hc] at hok
    exact (Except.ok.inj hok).symm

/-- Witness for C4 at the uuid draw `62 ^ 14`, whose code is `"1000000"`. -/
theorem created_code_witness :
    Response.shortenResponse "https://example.com" (pyTake7 (encode (62 ^ 14))) =
      .shortenResponse "https://example.com" (pyTake7 (encode (62 ^ 14))) ∧
    (pyTake7 (encode (62 ^ 14))).length = 7 ∧
    ∀ ch ∈ (pyTake7 (encode (62 ^ 14))).toList, ch ∈ base62Charset :=
  created_code_length7_base62 "https://example.com" (62 ^ 14) []
    (.shortenResponse "https://example.com" (pyTake7 (encode (62 ^ 14))))
    ⟨by norm_num, by norm_num⟩
    (by rw [shorten_url_success "https://example.com" (62 ^ 14) [] rfl])

/-- C5 counterexample: creating twice with the same uuid draw makes the
second generated code collide with the stored one; the outcome is the raw
`IntegrityError` escaping `session.commit()`, which no handler catches
(`handledStatus` is `none`: a bare 500 crash) — not a handled
`ConflictError` outcome. -/
theorem collision_unhandled_cex :
    (shorten_url "https://two.example" (62 ^ 14)
        (shorten_url "https://one.example" (62 ^ 14) []).2).1 =
      .error .integrityError ∧
    handledStatus .integrityError = none := by
  refine ⟨?_, rfl⟩
  rw [shorten_url_success "https://one.example" (62 ^ 14) [] rfl,
    shorten_url_conflict "https://two.example" (62 ^ 14) _ (by simp [codeExists])]

/-- C5 amended: when the generated code collides with a stored one, create
persists nothing — the store is unchanged, so no duplicate code is silently
accepted — but it fails with the unhandled `IntegrityError` (a 500-style
crash), not with a handled `ConflictError` the caller could treat as a
retryable conflict. -/
theorem collision_no_duplicate_unhandled (u : String) (uuid : Nat)
    (store : Store) (h : codeExists store (pyTake7 (encode uuid)) = true) :
    shorten_url u uuid store = (.error .integrityError, store) ∧
    handledStatus .integrityError = none :=
  ⟨shorten_url_conflict u uuid store h, rfl⟩

/-- Witness for the amended C5 at a store already holding `"1000000"`. -/
theorem collision_no_duplicate_witness :
    shorten_url "https://two.example" (62 ^ 14)
        [{ id := some 1, original_url := "https://one.example",
           shorten_url := "1000000", click_count := 0 }] =
      (.error .integrityError,
       [{ id := some 1, original_url := "https://one.example",
          shorten_url := "1000000", click_count := 0 }]) ∧
    handledStatus .integrityError = none :=
  collision_no_duplicate_unhandled "https://two.example" (62 ^ 14) _
    (by rw [pyTake7_encode_62pow14]; rfl)

/-- C6 counterexample: create accepts the empty `original_url` and persists
it — starting from the empty store (where every record trivially has a
non-empty URL), the store afterwards holds a record whose `original_url` is
`""`, so the non-empty-URL invariant is not preserved. -/
theorem create_empty_url_cex :
    ((shorten_url "" (62 ^ 14) []).1).isOk = true ∧
    ((shorten_url "" (62 ^ 14) []).2).map (fun r => r.original_url) = [""] := by
  rw [shorten_url_success "" (62 ^ 14) [] rfl]
  exact ⟨rfl, rfl⟩

/-- C6 amended: every operation preserves `shorten_url` uniqueness and
never decreases any surviving record's `click_count`, and the two stats
endpoints leave the store untouched; the third invariant of the claim —
`original_url` never empty — is not enforced by create (see the
counterexample). -/
theorem ops_preserve_uniq_and_mono (u c : String) (uuid : Nat)
    (store : Store) (hU : Uniq store) :
    (Uniq (shorten_url u uuid store).2 ∧
      clicksMono store (shorten_url u uuid store).2) ∧
    (Uniq (lookup_url store c).2 ∧
      clicksMono store (lookup_url store c).2) ∧
    (get_stats store c).2 = store ∧
    (get_all_rows store).2 = store := by
  refine ⟨⟨?_, ?_⟩, ⟨?_, ?_⟩, ?_, rfl⟩
  · by_cases hc : codeExists store (pyTake7 (encode uuid)) = true
    · rw [shorten_url_conflict u uuid store hc]
      exact hU
    · rw [Bool.not_eq_true] at hc
      rw [shorten_url_success u uuid store hc]
      exact uniq_append store _ hU hc
  · by_cases hc : codeExists store (pyTake7 (encode uuid)) = true
    · rw [shorten_url_conflict u uuid store hc]
      exact clicksMono_refl store
    · rw [Bool.not_eq_true] at hc
      rw [shorten_url_success u uuid store hc]
      exact clicksMono_append store _
  · cases hf : store.find? (fun x => x.shorten_url == c) with
    | none => simp only [lookup_url, hf]; exact hU
    | some r => simp only [lookup_url, hf]; exact uniq_incrementFirst store c hU
  · cases hf : store.find? (fun x => x.shorten_url == c) with
    | none => simp only [lookup_url, hf]; exact clicksMono_refl store
    | some r => simp only [lookup_url, hf]; exact clicksMono_incrementFirst store c
  · cases hf : store.find? (fun x => x.shorten_url == c) <;>
      simp only [get_stats, hf]

/-- Witness for the amended C6 at the empty store. -/
theorem ops_preserve_witness :
    (Uniq (shorten_url "https://example.com" (62 ^ 14) []).2 ∧
      clicksMono [] (shorten_url "https://example.com" (62 ^ 14) []).2) ∧
    (Uniq (lookup_url [] "x").2 ∧ clicksMono [] (lookup_url [] "x").2) ∧
    (get_stats [] "x").2 = [] ∧
    (get_all_rows []).2 = [] :=
  ops_preserve_uniq_and_mono "https://example.com" "x" (62 ^ 14) []
    List.Pairwise.nil

/-- C7: the `GET /stats/<short_code>` endpoint never mutates the store — on a hit and on
a miss alike, the store after the call is exactly the store before it. -/
theorem get_stats_does_not_mutate (store : Store) (c : String) :
    (get_stats store c).2 = store := by
  cases hf : store.find? (fun x => x.shorten_url == c) <;>
    simp only [get_stats, hf]

/-- C8 counterexample: the body whose `original_url` is the malformed URL
string `"not a url"` passes `ShortenRequest` validation (the field is
declared `str`, nothing checks URL shape), no `ValidationError` is raised,
and a record for the malformed URL is persisted. -/
theorem malformed_url_accepted_cex :
    post_shorten (.strField "not a url") (62 ^ 14) [] =
      (.ok (.shortenResponse "not a url" "1000000"),
       [{ id := some 1, original_url := "not a url",
          shorten_url := "1000000", click_count := 0 }]) := by
  have h1 := shorten_url_success "not a url" (62 ^ 14) [] rfl
  rw [pyTake7_encode_62pow14] at h1
  show shorten_url "not a url" (62 ^ 14) [] = _
  rw [h1]
  rfl

/-- C8 amended: request validation checks only that `original_url` is
present and a string: a missing or non-string field fails with
`ValidationError` before the store is touched, while any string — malformed
URLs included — passes and is persisted verbatim in a new record. -/
theorem validation_accepts_any_string (s : String) (uuid : Nat)
    (store : Store)
    (hfree : codeExists store (pyTake7 (encode uuid)) = false) :
    (∀ uuid2 store2,
      post_shorten .invalidBody uuid2 store2 = (.error .validationError, store2)) ∧
    (post_shorten (.strField s) uuid store).2 =
      store ++ [{ id := some (store.length + 1), original_url := s,
                  shorten_url := pyTake7 (encode uuid), click_count := 0 }] := by
  refine ⟨fun _ _ => rfl, ?_⟩
  show (shorten_url s uuid store).2 = _
  rw [shorten_url_success s uuid store hfree]

/-- Witness for the amended C8 at the malformed string `"not a url"`. -/
theorem validation_accepts_witness :
    (∀ uuid2 store2,
      post_shorten .invalidBody uuid2 store2 = (.error .validationError, store2)) ∧
    (post_shorten (.strField "not a url") (62 ^ 14) []).2 =
      [{ id := some 1, original_url := "not a url",
         shorten_url := pyTake7 (encode (62 ^ 14)), click_count := 0 }] :=
  validation_accepts_any_string "not a url" (62 ^ 14) [] rfl

/-- C9 counterexample: calling `generate_short_code` by itself on the empty
store persists the row — `session.add` and `session.commit` happen inside
the method — so the generator alone does have a side effect on the store. -/
theorem generate_mutates_store_cex :
    (generate_short_code
        { id := none, original_url := "https://example.com",
          shorten_url := "", click_count := 0 } (62 ^ 14) []).2 =
      [{ id := some 1, original_url := "https://example.com",
         shorten_url := "1000000", click_count := 0 }] ∧
    [{ id := some 1, original_url := "https://example.com",
       shorten_url := "1000000", click_count := 0 }] ≠ ([] : Store) := by
  constructor
  · show ([] : Store) ++
        [{ id := some ((0 : Nat) + 1), original_url := "https://example.com",
           shorten_url := pyTake7 (encode (62 ^ 14)), click_count := 0 }] = _
    rw [pyTake7_encode_62pow14]
    rfl
  · simp

/-- C9 amended: `generate_short_code` both generates the code and persists
the association itself, appending the row inside the method; the create
endpoint delegates persistence entirely to it and adds nothing further. -/
theorem generate_short_code_persists (r : URLShortener) (uuid : Nat)
    (store : Store)
    (hfree : codeExists store (pyTake7 (encode uuid)) = false) :
    (generate_short_code r uuid store).2 =
      store ++
        [{ r with
           shorten_url := pyTake7 (encode uuid)
           id := some (store.length + 1) }] ∧
    ∀ u, (shorten_url u uuid store).2 =
      (generate_short_code
        { id := none, original_url := u, shorten_url := "", click_count := 0 }
        uuid store).2 := by
  constructor
  · simp [generate_short_code, hfree]
  · intro u
    rcases hg : generate_short_code
      { id := none, original_url := u, shorten_url := "", click_count := 0 }
      uuid store with ⟨e, s⟩
    cases e <;> simp [shorten_url, hg]

/-- Witness for the amended C9 at the empty store. -/
theorem generate_persists_witness :
    (generate_short_code
        { id := none, original_url := "https://example.com",
          shorten_url := "", click_count := 0 } (62 ^ 14) []).2 =
      [{ id := some 1, original_url := "https://example.com",
         shorten_url := pyTake7 (encode (62 ^ 14)), click_count := 0 }] ∧
    ∀ u, (shorten_url u (62 ^ 14) []).2 =
      (generate_short_code
        { id := none, original_url := u, shorten_url := "", click_count := 0 }
        (62 ^ 14) []).2 :=
  generate_short_code_persists
    { id := none, original_url := "https://example.com",
      shorten_url := "", click_count := 0 } (62 ^ 14) [] rfl

/-- C10: when the store holds a record whose `original_url` is the empty
string, a `GET` on its code increments that record's `click_count` (the
lookup commits the update) and the endpoint still responds 404, because it
only tests the looked-up value for truthiness and `""` is falsy exactly
like the miss sentinel `0`. -/
theorem redirect_empty_url_404_and_increments (store : Store) (c : String)
    (r : URLShortener)
    (hfind : store.find? (fun x => x.shorten_url == c) = some r)
    (hempty : r.original_url = "") :
    redirect store c =
      (.error (.httpException 404 "URL not found"), incrementFirst store c) ∧
    clickOf (incrementFirst store c) c = some (r.click_count + 1) := by
  have hl := lookup_url_hit store c r hfind
  constructor
  · simp [redirect, hl, truthy, hempty]
  · rw [clickOf, find?_incrementFirst, hfind]
    rfl

/-- Witness for C10 at a store holding a record with empty URL. -/
theorem redirect_empty_url_witness :
    redirect [{ id := some 1, original_url := "", shorten_url := "abc",
                click_count := 0 }] "abc" =
      (.error (.httpException 404 "URL not found"),
       incrementFirst [{ id := some 1, original_url := "",
                         shorten_url := "abc", click_count := 0 }] "abc") ∧
    clickOf (incrementFirst [{ id := some 1, original_url := "",
                               shorten_url := "abc", click_count := 0 }] "abc")
        "abc" = some (0 + 1) :=
  redirect_empty_url_404_and_increments _ "abc"
    { id := some 1, original_url := "", shorten_url := "abc", click_count := 0 }
    rfl rfl

end UrlShortener
